import Mathlib

/-!
Shallow embedding of the Lifeplan projection engine (src/store/simulator.ts)
over exact rational arithmetic.  Amounts are man-yen as `ℚ`; `Number(x.toFixed(1))`
is modelled by `round1` (round to one decimal, ties toward +∞, matching the
ECMAScript `toFixed` tie rule "pick the larger n").

The helper module `@/lib/calculations` (calculateNetIncomeWithRaise,
calculateHousingExpense, calculatePension) is imported by the store but its
source is not among the repository files provided; those three functions are
modelled from the specification (each carries a doc comment saying so).
Everything else is translated directly from simulator.ts.
-/

/-- Rounding to one decimal place: `Number(x.toFixed(1))`.
Ties go to the larger value, per the ECMAScript `toFixed` specification. -/
def round1 (x : ℚ) : ℚ := (⌊x * 10 + 1/2⌋ : ℤ) / 10

/-- Occupation enumeration from simulator.ts line 4. -/
inductive Occupation where
  | company_employee
  | part_time_with_pension
  | part_time_without_pension
  | self_employed
  | homemaker
deriving DecidableEq, Repr

/-- Marital status from `BasicInfo.maritalStatus`. -/
inductive MaritalStatus where
  | single
  | married
  | planning
deriving DecidableEq, Repr

/-- Per-stage schooling-track choices (free-form strings in the source). -/
structure EducationPlan where
  nursery : String
  preschool : String
  elementary : String
  juniorHigh : String
  highSchool : String
  university : String
deriving DecidableEq, Repr

/-- An existing child: current age and education plan. -/
structure Child where
  currentAge : ℤ
  educationPlan : EducationPlan
deriving DecidableEq, Repr

/-- A planned child: offset in years from simulation start and education plan. -/
structure PlannedChild where
  yearsFromNow : ℤ
  educationPlan : EducationPlan
deriving DecidableEq, Repr

/-- Optional spouse sub-record of `BasicInfo` (all fields optional in the source). -/
structure SpouseInfo where
  age : Option ℤ
  currentAge : Option ℤ
  marriageAge : Option ℤ
  occupation : Option Occupation
deriving DecidableEq, Repr

/-- Rent-mode housing parameters. -/
structure HousingRent where
  monthlyRent : ℚ
  annualIncreaseRate : ℚ
deriving DecidableEq, Repr

/-- Own-mode housing parameters. -/
structure HousingOwn where
  purchaseYear : ℤ
  purchasePrice : ℚ
  loanAmount : ℚ
  interestRate : ℚ
  loanTermYears : ℤ
  maintenanceCostRate : ℚ
deriving DecidableEq, Repr

/-- Housing arrangement tag. -/
inductive HousingType where
  | rent
  | own
deriving DecidableEq, Repr

/-- Housing arrangement: a tag plus the optional per-mode sub-records. -/
structure HousingInfo where
  type : HousingType
  rent : Option HousingRent
  own : Option HousingOwn
deriving DecidableEq, Repr

/-- `BasicInfo` from simulator.ts (display-only fields such as gender omitted). -/
structure BasicInfo where
  currentAge : ℤ
  startYear : ℤ
  deathAge : ℤ
  monthlyLivingExpense : ℚ
  occupation : Occupation
  maritalStatus : MaritalStatus
  housingInfo : HousingInfo
  spouseInfo : Option SpouseInfo
  children : List Child
  plannedChildren : List PlannedChild
deriving DecidableEq, Repr

/-- Side-income entry tag. -/
inductive SideIncomeType where
  | one_time
  | recurring
deriving DecidableEq, Repr

/-- One-time side income. -/
structure OneTimeIncome where
  age : ℤ
  amount : ℚ
deriving DecidableEq, Repr

/-- Recurring side income. -/
structure RecurringIncome where
  monthlyAmount : ℚ
  startAge : ℤ
  endAge : ℤ
deriving DecidableEq, Repr

/-- `SideIncome` from simulator.ts. -/
structure SideIncome where
  type : SideIncomeType
  oneTime : Option OneTimeIncome
  recurring : Option RecurringIncome
deriving DecidableEq, Repr

/-- Spouse income sub-record of `IncomeInfo`. -/
structure SpouseIncome where
  annualIncome : ℚ
  severancePay : ℚ
  workStartAge : ℤ
  workEndAge : ℤ
  pensionAmount : ℚ
deriving DecidableEq, Repr

/-- `IncomeInfo` from simulator.ts. -/
structure IncomeInfo where
  annualIncome : ℚ
  raiseRate : ℚ
  severancePay : ℚ
  workStartAge : ℤ
  workEndAge : ℤ
  pensionStartAge : ℤ
  pensionAmount : ℚ
  sideIncomes : List SideIncome
  spouse : Option SpouseIncome
deriving DecidableEq, Repr

/-- The five asset buckets. -/
structure Assets where
  cash : ℚ
  savings : ℚ
  stocks : ℚ
  investmentTrust : ℚ
  realEstate : ℚ
deriving DecidableEq, Repr

/-- The two liability buckets. -/
structure Liabilities where
  loans : ℚ
  creditCards : ℚ
deriving DecidableEq, Repr

/-- `AssetsLiabilities` from simulator.ts. -/
structure AssetsLiabilities where
  assets : Assets
  liabilities : Liabilities
deriving DecidableEq, Repr

/-- Global simulation parameters. -/
structure Parameters where
  inflationRate : ℚ
  educationCostIncreaseRate : ℚ
  investmentReturn : ℚ
deriving DecidableEq, Repr

/-- Life-event type tag. -/
inductive LifeEventType where
  | income
  | expense
deriving DecidableEq, Repr

/-- `LifeEvent` from simulator.ts. -/
structure LifeEvent where
  year : ℤ
  description : String
  type : LifeEventType
  category : String
  amount : ℚ
deriving DecidableEq, Repr

/-- One cash-flow row, as produced by `initializeCashFlow`. -/
structure CashFlowRow where
  mainIncome : ℚ
  sideIncome : ℚ
  investmentIncome : ℚ
  spouseIncome : ℚ
  livingExpense : ℚ
  housingExpense : ℚ
  educationExpense : ℚ
  otherExpense : ℚ
deriving DecidableEq, Repr

/-- Modelled from the spec: the occupation-specific net-of-deduction ratio of the
Income Calculator (§4.1).  `lib/calculations.ts` is not among the provided
sources; the spec only requires distinct fixed constants per occupation, with
homemaker ratio 0.  Representative constants are chosen. -/
def occupationNetRatio : Occupation → ℚ
  | .company_employee => 4/5
  | .part_time_with_pension => 17/20
  | .part_time_without_pension => 9/10
  | .self_employed => 3/4
  | .homemaker => 0

/-- Modelled from the spec: `calculateNetIncomeWithRaise` of `lib/calculations.ts`
(missing from the provided sources).  §4.1: net income = base × (1 + raiseRate/100)
^ (targetYear − startYear) × occupation net ratio, rounded to one decimal; raises
do not compound before the base year (the clamped `toNat` exponent realises
this). -/
def calculateNetIncomeWithRaise (annualIncome : ℚ) (occupation : Occupation)
    (raiseRate : ℚ) (year startYear : ℤ) : ℚ :=
  round1 (annualIncome * (1 + raiseRate / 100) ^ (year - startYear).toNat *
    occupationNetRatio occupation)

/-- Modelled from the spec: the occupation pension-generosity factor (§4.2):
occupations with employer-sponsored pension schemes get a materially higher
multiplier. -/
def occupationPensionFactor : Occupation → ℚ
  | .company_employee => 1/200
  | .part_time_with_pension => 1/200
  | .part_time_without_pension => 1/500
  | .self_employed => 1/500
  | .homemaker => 1/500

/-- Modelled from the spec: `calculatePension` of `lib/calculations.ts` (missing
from the provided sources).  §4.2: an annual benefit that is a function of years
worked (clamped at 0) and income, scaled by the occupation factor; zero years
worked gives zero pension; the pension start age is not used by the estimator
itself. -/
def calculatePension (annualIncome : ℚ) (workStartAge workEndAge : ℤ)
    (pensionStartAge : ℤ) (occupation : Occupation) : ℚ :=
  round1 (annualIncome * ((max (workEndAge - workStartAge) 0 : ℤ) : ℚ) *
    occupationPensionFactor occupation)

/-- Modelled from the spec: the fixed-payment amortization used by the own-mode
housing branch (§4.3). -/
def amortizedAnnualPayment (loanAmount rate : ℚ) (termYears : ℤ) : ℚ :=
  if termYears ≤ 0 then 0
  else if rate = 0 then loanAmount / (termYears : ℚ)
  else
    let m := rate / 100
    loanAmount * m * (1 + m) ^ termYears.toNat / ((1 + m) ^ termYears.toNat - 1)

/-- Modelled from the spec: `calculateHousingExpense` of `lib/calculations.ts`
(missing from the provided sources).  §4.3: rent mode pays annualised rent (the
rent-increase baseline year is not derivable from the call interface, which
passes only the arrangement and the target year, so the increase exponent is 0
here); own mode pays the amortized loan plus maintenance during
[purchaseYear, purchaseYear + loanTermYears), maintenance only afterwards, and
0 before the purchase year. -/
def calculateHousingExpense (h : HousingInfo) (year : ℤ) : ℚ :=
  match h.type with
  | .rent =>
    match h.rent with
    | some r => r.monthlyRent * 12
    | none => 0
  | .own =>
    match h.own with
    | some o =>
      if year < o.purchaseYear then 0
      else if year < o.purchaseYear + o.loanTermYears then
        amortizedAnnualPayment o.loanAmount o.interestRate o.loanTermYears +
          o.purchasePrice * o.maintenanceCostRate / 100
      else o.purchasePrice * o.maintenanceCostRate / 100
    | none => 0

/-- `getUniversityCost` (simulator.ts lines 507-520): four fixed tuition tiers,
anything else (including the does-not-attend marker) costs 0. -/
def getUniversityCost (universityType : String) : ℚ :=
  if universityType = "公立大学（文系）" then 325
  else if universityType = "公立大学（理系）" then 375
  else if universityType = "私立大学（文系）" then 550
  else if universityType = "私立大学（理系）" then 650
  else 0

/-- The per-band, per-child base education expense (simulator.ts lines 442-455):
the age bands are mutually exclusive, so the source's sequence of guarded
reassignments to `expense` is an if-else chain; `行かない` ("does not attend")
forces 0; `私立` selects the private tier, any other string the public tier. -/
def bandExpense (plan : EducationPlan) (childAge : ℤ) : ℚ :=
  if 0 ≤ childAge ∧ childAge ≤ 2 then
    if plan.nursery ≠ "行かない" then (if plan.nursery = "私立" then 50 else 23.3) else 0
  else if 3 ≤ childAge ∧ childAge ≤ 5 then
    if plan.preschool ≠ "行かない" then (if plan.preschool = "私立" then 100 else 58.3) else 0
  else if 6 ≤ childAge ∧ childAge ≤ 11 then
    if plan.elementary ≠ "行かない" then (if plan.elementary = "私立" then 83.3 else 41.7) else 0
  else if 12 ≤ childAge ∧ childAge ≤ 14 then
    if plan.juniorHigh ≠ "行かない" then (if plan.juniorHigh = "私立" then 133.3 else 66.7) else 0
  else if 15 ≤ childAge ∧ childAge ≤ 17 then
    if plan.highSchool ≠ "行かない" then (if plan.highSchool = "私立" then 250 else 83.3) else 0
  else if 18 ≤ childAge ∧ childAge ≤ 21 then
    if plan.university ≠ "行かない" then getUniversityCost plan.university else 0
  else 0

/-- `calculateEducationExpense` (simulator.ts lines 429-491): existing children
contribute at `child.currentAge + yearsSinceStart`; planned children only once
`yearsSinceStart ≥ yearsFromNow`, at age `yearsSinceStart − yearsFromNow`; each
contribution is inflated by the education-cost growth multiplier; the grand
total is rounded to one decimal. -/
def calculateEducationExpense (children : List Child)
    (plannedChildren : List PlannedChild) (year : ℤ) (currentAge : ℤ)
    (startYear : ℤ) (educationCostIncreaseRate : ℚ) : ℚ :=
  let yearsSinceStart := year - startYear
  let increaseMultiplier := (1 + educationCostIncreaseRate / 100) ^ yearsSinceStart.toNat
  let existingChildrenExpense := children.foldl
    (fun total child =>
      total + bandExpense child.educationPlan (child.currentAge + yearsSinceStart) *
        increaseMultiplier) 0
  let plannedChildrenExpense := plannedChildren.foldl
    (fun total child =>
      if child.yearsFromNow ≤ yearsSinceStart then
        total + bandExpense child.educationPlan (yearsSinceStart - child.yearsFromNow) *
          increaseMultiplier
      else total) 0
  round1 (existingChildrenExpense + plannedChildrenExpense)

/-- `calculateLifeEventExpense` (simulator.ts lines 493-505): fold over all
events; events whose year matches add their amount when of type expense and
subtract it otherwise; the total is rounded to one decimal. -/
def calculateLifeEventExpense (lifeEvents : List LifeEvent) (year : ℤ) : ℚ :=
  round1 (lifeEvents.foldl
    (fun total event =>
      if event.year = year then
        if event.type = .expense then total + event.amount else total - event.amount
      else total) 0)

/-- The life-event net effect in the spec's sign convention (income events add,
expense events subtract): the negation of the other-expense the engine
subtracts from the net balance. -/
def lifeEventNetEffect (lifeEvents : List LifeEvent) (year : ℤ) : ℚ :=
  - calculateLifeEventExpense lifeEvents year

/-- The immutable snapshot `initializeCashFlow` reads from the store
(simulator.ts line 296). -/
structure SimInput where
  basicInfo : BasicInfo
  incomeInfo : IncomeInfo
  lifeEvents : List LifeEvent
  assetsLiabilities : AssetsLiabilities
  parameters : Parameters
deriving Repr

/-- Net initial assets (simulator.ts lines 306-307): sum of the five asset
buckets minus the sum of the two liability buckets. -/
def initialAssets (al : AssetsLiabilities) : ℚ :=
  (al.assets.cash + al.assets.savings + al.assets.stocks +
    al.assets.investmentTrust + al.assets.realEstate) -
  (al.liabilities.loans + al.liabilities.creditCards)

/-- Main income for one year (simulator.ts lines 316-335): salary only while
the head's age lies in the inclusive work window, plus pension from
`pensionStartAge` onward. -/
def mainIncomeAt (s : SimInput) (year : ℤ) : ℚ :=
  let age := s.basicInfo.currentAge + (year - s.basicInfo.startYear)
  let salary :=
    if s.incomeInfo.workStartAge ≤ age ∧ age ≤ s.incomeInfo.workEndAge then
      calculateNetIncomeWithRaise s.incomeInfo.annualIncome s.basicInfo.occupation
        s.incomeInfo.raiseRate year s.basicInfo.startYear
    else 0
  if s.incomeInfo.pensionStartAge ≤ age then
    salary + calculatePension s.incomeInfo.annualIncome s.incomeInfo.workStartAge
      s.incomeInfo.workEndAge s.incomeInfo.pensionStartAge s.basicInfo.occupation
  else salary

/-- Spouse income for one year (simulator.ts lines 337-382).  The married
branch needs the spouse profile with a `currentAge` and the spouse income
record; the planning branch needs a declared `marriageAge`, activates only from
the computed marriage year, and then needs the spouse income record and the
spouse's `age`, compounding from the marriage year. -/
def spouseIncomeAt (s : SimInput) (year : ℤ) : ℚ :=
  let b := s.basicInfo
  let yearsSinceStart := year - b.startYear
  if b.maritalStatus = .married then
    match b.spouseInfo, s.incomeInfo.spouse with
    | some si, some sp =>
      match si.currentAge with
      | some ca =>
        let spouseAge := ca + yearsSinceStart
        let occ := si.occupation.getD .company_employee
        let salary :=
          if sp.workStartAge ≤ spouseAge ∧ spouseAge ≤ sp.workEndAge then
            calculateNetIncomeWithRaise sp.annualIncome occ 0 year b.startYear
          else 0
        if s.incomeInfo.pensionStartAge ≤ spouseAge then
          salary + calculatePension sp.annualIncome sp.workStartAge sp.workEndAge
            s.incomeInfo.pensionStartAge occ
        else salary
      | none => 0
    | _, _ => 0
  else if b.maritalStatus = .planning then
    match b.spouseInfo with
    | some si =>
      match si.marriageAge with
      | some ma =>
        let marriageYear := b.startYear + (ma - b.currentAge)
        if marriageYear ≤ year then
          match s.incomeInfo.spouse, si.age with
          | some sp, some sa =>
            let spouseAge := sa + (year - marriageYear)
            let occ := si.occupation.getD .company_employee
            let salary :=
              if sp.workStartAge ≤ spouseAge ∧ spouseAge ≤ sp.workEndAge then
                calculateNetIncomeWithRaise sp.annualIncome occ 0 year marriageYear
              else 0
            if s.incomeInfo.pensionStartAge ≤ spouseAge then
              salary + calculatePension sp.annualIncome sp.workStartAge sp.workEndAge
                s.incomeInfo.pensionStartAge occ
            else salary
          | _, _ => 0
        else 0
      | none => 0
    | none => 0
  else 0

/-- Investment return for one year (simulator.ts lines 384-386): only a
strictly positive carried balance earns the return, rounded to one decimal. -/
def investmentReturnAt (s : SimInput) (previousYearAssets : ℚ) : ℚ :=
  if 0 < previousYearAssets then
    round1 (previousYearAssets * (s.parameters.investmentReturn / 100))
  else 0

/-- Living expense for one year (simulator.ts line 389): monthly baseline × 12,
inflated from the start year. -/
def livingExpenseAt (s : SimInput) (year : ℤ) : ℚ :=
  round1 (s.basicInfo.monthlyLivingExpense * 12 *
    (1 + s.parameters.inflationRate / 100) ^ (year - s.basicInfo.startYear).toNat)

/-- Housing expense for one year (simulator.ts line 392). -/
def housingExpenseAt (s : SimInput) (year : ℤ) : ℚ :=
  round1 (calculateHousingExpense s.basicInfo.housingInfo year)

/-- Education expense for one year (simulator.ts lines 395-402). -/
def educationExpenseAt (s : SimInput) (year : ℤ) : ℚ :=
  calculateEducationExpense s.basicInfo.children s.basicInfo.plannedChildren year
    s.basicInfo.currentAge s.basicInfo.startYear s.parameters.educationCostIncreaseRate

/-- Other (life-event) expense for one year (simulator.ts line 405). -/
def otherExpenseAt (s : SimInput) (year : ℤ) : ℚ :=
  calculateLifeEventExpense s.lifeEvents year

/-- The cash-flow row stored for one year (simulator.ts lines 408-417); every
component is rounded to one decimal on emission and sideIncome is the literal
0. -/
def rowAt (s : SimInput) (previousYearAssets : ℚ) (year : ℤ) : CashFlowRow :=
  { mainIncome := round1 (mainIncomeAt s year)
    sideIncome := 0
    investmentIncome := round1 (investmentReturnAt s previousYearAssets)
    spouseIncome := round1 (spouseIncomeAt s year)
    livingExpense := round1 (livingExpenseAt s year)
    housingExpense := round1 (housingExpenseAt s year)
    educationExpense := round1 (educationExpenseAt s year)
    otherExpense := round1 (otherExpenseAt s year) }

/-- The closing-assets update (simulator.ts lines 419-422): income = main +
spouse + investment return; expenses = living + housing + education + other;
the new carried balance is the previous one plus income minus expenses, rounded
to one decimal. -/
def nextAssets (s : SimInput) (previousYearAssets : ℚ) (year : ℤ) : ℚ :=
  round1 (previousYearAssets +
    (mainIncomeAt s year + spouseIncomeAt s year + investmentReturnAt s previousYearAssets) -
    (livingExpenseAt s year + housingExpenseAt s year + educationExpenseAt s year +
      otherExpenseAt s year))

/-- Number of simulated years (simulator.ts lines 297-301):
`Array.from \x7b length: yearsUntilDeath + 1 \x7d` is empty when the length is
not positive, which the `toNat` clamp reproduces. -/
def horizonLen (b : BasicInfo) : ℕ := ((b.deathAge - b.currentAge) + 1).toNat

/-- The closing-assets state threaded through the `forEach` loop
(`previousYearAssets`): its value before processing the i-th simulated year. -/
def assetsAfter (s : SimInput) : ℕ → ℚ
  | 0 => initialAssets s.assetsLiabilities
  | n + 1 => nextAssets s (assetsAfter s n) (s.basicInfo.startYear + n)

/-- `initializeCashFlow` (simulator.ts lines 294-426): one row per simulated
year, keyed by calendar year and emitted in ascending year order, with the
closing-assets state threaded forward. -/
def initializeCashFlow (s : SimInput) : List (ℤ × CashFlowRow) :=
  (List.range (horizonLen s.basicInfo)).map
    (fun (i : ℕ) => (s.basicInfo.startYear + (i : ℤ),
      rowAt s (assetsAfter s i) (s.basicInfo.startYear + (i : ℤ))))

/-- The cash-flow cell fields of a row object. -/
inductive CashFlowField where
  | mainIncome
  | sideIncome
  | investmentIncome
  | spouseIncome
  | livingExpense
  | housingExpense
  | educationExpense
  | otherExpense
deriving DecidableEq, Repr

/-- The store's `cashFlow` object at the JavaScript object level: a partial map
from years to row objects whose fields may individually be absent (spreading a
missing row yields an empty object). -/
def CashFlowObject : Type := ℤ → Option (CashFlowField → Option ℚ)

/-- `updateCashFlowValue` (simulator.ts lines 283-293):
`\x7b ...state.cashFlow, [year]: \x7b ...state.cashFlow[year], [field]: value \x7d \x7d`.
Only the addressed year's object is replaced; within it only the addressed
field is overwritten, the remaining fields being copied from the existing row
object (absent when the row was absent).  No recomputation is invoked: unlike
the profile setters, this action does not call `initializeCashFlow`. -/
def updateCashFlowValue (cf : CashFlowObject) (year : ℤ) (field : CashFlowField)
    (value : ℚ) : CashFlowObject :=
  fun y =>
    if y = year then
      some (fun g => if g = field then some value else (cf year).bind (fun r => r g))
    else cf y

/-- An education plan choosing the private track in every band (university tier
given by the argument). -/
def privatePlan (u : String) : EducationPlan :=
  ⟨"私立", "私立", "私立", "私立", "私立", u⟩

/-- An education plan choosing the public/standard track in every band
(university tier given by the argument). -/
def publicPlan (u : String) : EducationPlan :=
  ⟨"公立", "公立", "公立", "公立", "公立", u⟩

/-- Concrete rent-mode housing arrangement used by the concrete instances. -/
def exHousingRent : HousingInfo := ⟨.rent, some ⟨0, 0⟩, none⟩

/-- Concrete assets: 10 in cash, nothing else. -/
def exALZero : AssetsLiabilities := ⟨⟨10, 0, 0, 0, 0⟩, ⟨0, 0⟩⟩

/-- Concrete parameters: no inflation, no education growth, 3 % return. -/
def exParamsA : Parameters := ⟨0, 0, 3⟩

/-- Concrete profile: a single 30-year-old, horizon 2025-2026, working until
age 30 with pension starting at the age 31 reached in 2026. -/
def exPension : SimInput :=
  ⟨⟨30, 2025, 31, 0, .company_employee, .single, exHousingRent, none, [], []⟩,
   ⟨500, 0, 0, 22, 30, 31, 0, [], none⟩, [], exALZero, exParamsA⟩

/-- Concrete profile: work window ends at age 30 and the pension starts only at
age 100, so the simulated year 2026 is outside both. -/
def exWindow : SimInput :=
  ⟨⟨30, 2025, 31, 0, .company_employee, .single, exHousingRent, none, [], []⟩,
   ⟨500, 0, 0, 22, 30, 100, 0, [], none⟩, [], exALZero, exParamsA⟩

/-- Concrete profile: a single worker over the horizon 2025-2026 with positive
initial assets. -/
def exReturns : SimInput :=
  ⟨⟨30, 2025, 31, 0, .company_employee, .single, exHousingRent, none, [], []⟩,
   ⟨500, 0, 0, 22, 60, 65, 0, [], none⟩, [], exALZero, exParamsA⟩

/-- Concrete spouse income record. -/
def exSpouseInc : SpouseIncome := ⟨300, 0, 22, 60, 0⟩

/-- Concrete spouse profile: age 28 at marriage, marriage at the household
head's age 33. -/
def exSpouseInfo : SpouseInfo := ⟨some 28, none, some 33, some .company_employee⟩

/-- Concrete planning-to-marry profile: marriage year 2028 = 2025 + (33 − 30). -/
def exPlanning : SimInput :=
  ⟨⟨30, 2025, 80, 0, .company_employee, .planning, exHousingRent, some exSpouseInfo, [], []⟩,
   ⟨500, 0, 0, 22, 60, 65, 0, [], some exSpouseInc⟩, [], exALZero, exParamsA⟩

/-- Concrete profile married by status but with no spouse income record and no
spouse profile. -/
def exMarriedNoSpouse : SimInput :=
  ⟨⟨30, 2025, 31, 0, .company_employee, .married, exHousingRent, none, [], []⟩,
   ⟨500, 0, 0, 22, 60, 65, 0, [], none⟩, [], exALZero, exParamsA⟩

/-- A concrete row object with every field set to 1. -/
def exObjRow : CashFlowField → Option ℚ := fun _ => some 1

/-- A concrete cash-flow object with a single row at year 2025. -/
def exObj : CashFlowObject := fun y => if y = 2025 then some exObjRow else none

/-- Rounding to one decimal fixes zero. -/
lemma round1_zero : round1 0 = 0 := by norm_num [round1]

/-- Rounding to one decimal is monotone. -/
lemma round1_mono {x y : ℚ} (h : x ≤ y) : round1 x ≤ round1 y := by
  unfold round1
  have hf : (⌊x * 10 + 1/2⌋ : ℤ) ≤ ⌊y * 10 + 1/2⌋ := by
    apply Int.floor_le_floor; linarith
  have : ((⌊x * 10 + 1/2⌋ : ℤ) : ℚ) ≤ ((⌊y * 10 + 1/2⌋ : ℤ) : ℚ) := by exact_mod_cast hf
  linarith

/-- A one-decimal value is a fixed point of one-decimal rounding. -/
lemma round1_intCast_div_ten (k : ℤ) : round1 ((k : ℚ) / 10) = (k : ℚ) / 10 := by
  unfold round1
  rw [show (k : ℚ) / 10 * 10 + 1/2 = ((k : ℤ) : ℚ) + (1/2 : ℚ) by ring]
  rw [Int.floor_int_add]
  norm_num

/-- Rounding to one decimal is idempotent. -/
lemma round1_round1 (x : ℚ) : round1 (round1 x) = round1 x := by
  unfold round1
  exact round1_intCast_div_ten _

/-- C1: the closing-assets state satisfies A(0) = net initial assets (sum of
the five asset buckets minus the two liability buckets) and, for every
subsequent simulated year, A(i+1) = round1 of A(i) plus that year's net
balance, the net balance being (main income + spouse income + investment
return) minus (living + housing + education expenses) plus the life-event net
effect of that year. -/
theorem closing_assets_recurrence (s : SimInput) :
    assetsAfter s 0 = initialAssets s.assetsLiabilities ∧
    ∀ i : ℕ, assetsAfter s (i + 1) =
      round1 (assetsAfter s i +
        ((mainIncomeAt s (s.basicInfo.startYear + (i : ℤ)) +
          spouseIncomeAt s (s.basicInfo.startYear + (i : ℤ)) +
          investmentReturnAt s (assetsAfter s i)) -
         (livingExpenseAt s (s.basicInfo.startYear + (i : ℤ)) +
          housingExpenseAt s (s.basicInfo.startYear + (i : ℤ)) +
          educationExpenseAt s (s.basicInfo.startYear + (i : ℤ))) +
         lifeEventNetEffect s.lifeEvents (s.basicInfo.startYear + (i : ℤ)))) := by
  refine ⟨rfl, fun i => ?_⟩
  show nextAssets s (assetsAfter s i) (s.basicInfo.startYear + (i : ℤ)) = _
  unfold nextAssets lifeEventNetEffect otherExpenseAt
  congr 1
  ring

/-- Unfolding the life-event fold to a filtered signed sum, for any
accumulator. -/
lemma lifeEvent_foldl (year : ℤ) (l : List LifeEvent) (a : ℚ) :
    l.foldl
      (fun total event =>
        if event.year = year then
          if event.type = .expense then total + event.amount else total - event.amount
        else total) a =
    a + ((l.filter (fun e => e.year = year)).map
      (fun e => if e.type = .expense then e.amount else -e.amount)).sum := by
  induction l generalizing a with
  | nil => simp
  | cons e l ih =>
    by_cases hy : e.year = year
    · by_cases ht : e.type = .expense
      · simp [List.foldl_cons, hy, ht, ih]; ring
      · simp [List.foldl_cons, hy, ht, ih]; ring
    · simp [List.foldl_cons, hy, ih]

/-- C2 counterexample: a single income event of amount 100 in the target year
makes the calculator return −100, not the claimed +100 — income events
subtract in `calculateLifeEventExpense`, they do not add. -/
theorem lifeEvent_income_sign_refuted :
    calculateLifeEventExpense [⟨2025, "", .income, "", 100⟩] 2025 = -100 ∧
      (-100 : ℚ) ≠ 100 := by
  constructor
  · simp +decide [calculateLifeEventExpense]
    norm_num [round1]
  · norm_num

/-- C2 amended: for every list of life events and target year the calculator
returns the signed sum, rounded to one decimal, of the amounts of exactly
those events whose year equals the target year, where expense events add their
amount and income events subtract it (the net other-expense, which the
recurrence then subtracts from the balance); events of other years are
ignored and multiple same-year events all contribute. -/
theorem lifeEvent_netting (lifeEvents : List LifeEvent) (year : ℤ) :
    calculateLifeEventExpense lifeEvents year =
      round1 (((lifeEvents.filter (fun e => e.year = year)).map
        (fun e => if e.type = .expense then e.amount else -e.amount)).sum) := by
  unfold calculateLifeEventExpense
  rw [lifeEvent_foldl year lifeEvents 0, zero_add]

/-- The i-th emitted entry is the row for calendar year startYear + i, built
from the carried closing assets. -/
lemma initializeCashFlow_entry (s : SimInput) (i : ℕ) (y : ℤ) (r : CashFlowRow)
    (h : (initializeCashFlow s)[i]? = some (y, r)) :
    y = s.basicInfo.startYear + (i : ℤ) ∧
      r = rowAt s (assetsAfter s i) (s.basicInfo.startYear + (i : ℤ)) := by
  unfold initializeCashFlow at h
  rw [List.getElem?_map] at h
  cases hr : (List.range (horizonLen s.basicInfo))[i]? with
  | none => rw [hr] at h; cases h
  | some j =>
    have hj : j = i := by
      have hlt : i < horizonLen s.basicInfo := by
        by_contra hge
        rw [List.getElem?_eq_none (by simpa [List.length_range] using hge)] at hr
        cases hr
      rw [List.getElem?_range hlt] at hr
      cases hr; rfl
    subst hj
    rw [hr] at h
    cases h
    exact ⟨rfl, rfl⟩

/-- C3: the investment return credited in the i-th emitted row equals
round1(A(i) × investmentReturn/100) when the carried closing assets A(i) are
strictly positive, and 0 when A(i) is zero or negative — negative balances are
never charged interest. -/
theorem investment_return_rule (s : SimInput) (i : ℕ) (y : ℤ) (r : CashFlowRow)
    (h : (initializeCashFlow s)[i]? = some (y, r)) :
    r.investmentIncome =
      if 0 < assetsAfter s i then
        round1 (assetsAfter s i * (s.parameters.investmentReturn / 100))
      else 0 := by
  obtain ⟨-, rfl⟩ := initializeCashFlow_entry s i y r h
  show round1 (investmentReturnAt s (assetsAfter s i)) = _
  unfold investmentReturnAt
  split
  · exact round1_round1 _
  · exact round1_zero

/-- C3 witness: on the concrete profile the first row's investment income
follows the positive-balance rule. -/
theorem investment_return_rule_witness :
    (rowAt exReturns (assetsAfter exReturns 0) 2025).investmentIncome =
      if 0 < assetsAfter exReturns 0 then
        round1 (assetsAfter exReturns 0 * (exReturns.parameters.investmentReturn / 100))
      else 0 :=
  investment_return_rule exReturns 0 2025 _
    (by simp [initializeCashFlow, horizonLen, exReturns, List.range_succ])

/-- C4 counterexample: in `exPension` the simulated year 2026 has age 31,
outside the work window [22, 30], yet the emitted main income is the pension
benefit 20, not 0 — pension is added to main income regardless of the work
window. -/
theorem main_income_window_refuted :
    ((initializeCashFlow exPension)[1]?).map (fun p => p.2.mainIncome) = some 20 ∧
    ¬((22:ℤ) ≤ 30 + ((2026:ℤ) - 2025) ∧ (30:ℤ) + ((2026:ℤ) - 2025) ≤ 30) ∧
    (20:ℚ) ≠ 0 := by
  refine ⟨?_, by norm_num, by norm_num⟩
  simp +decide [initializeCashFlow, horizonLen, exPension, List.range_succ,
    rowAt, mainIncomeAt, calculatePension, occupationPensionFactor]
  norm_num [round1]

/-- Main income vanishes in a year whose age is outside the work window and
below the pension start age. -/
lemma mainIncomeAt_eq_zero (s : SimInput) (year : ℤ)
    (hw : ¬(s.incomeInfo.workStartAge ≤
              s.basicInfo.currentAge + (year - s.basicInfo.startYear) ∧
            s.basicInfo.currentAge + (year - s.basicInfo.startYear) ≤
              s.incomeInfo.workEndAge))
    (hpen : s.basicInfo.currentAge + (year - s.basicInfo.startYear) <
      s.incomeInfo.pensionStartAge) :
    mainIncomeAt s year = 0 := by
  simp only [mainIncomeAt]
  rw [if_neg (by omega), if_neg hw]

/-- C4 amended: in every emitted row whose year puts the household head's age
outside the inclusive work window, the main income is exactly 0 provided the
age is also below the pension start age; from the pension start age onward the
pension benefit is added to main income even outside the work window. -/
theorem main_income_window (s : SimInput) (p : ℤ × CashFlowRow)
    (hp : p ∈ initializeCashFlow s)
    (hw : ¬(s.incomeInfo.workStartAge ≤
              s.basicInfo.currentAge + (p.1 - s.basicInfo.startYear) ∧
            s.basicInfo.currentAge + (p.1 - s.basicInfo.startYear) ≤
              s.incomeInfo.workEndAge))
    (hpen : s.basicInfo.currentAge + (p.1 - s.basicInfo.startYear) <
      s.incomeInfo.pensionStartAge) :
    p.2.mainIncome = 0 := by
  unfold initializeCashFlow at hp
  obtain ⟨i, hi, rfl⟩ := List.mem_map.1 hp
  show round1 (mainIncomeAt s (s.basicInfo.startYear + (i:ℤ))) = 0
  rw [mainIncomeAt_eq_zero s _ hw hpen, round1_zero]

/-- C4 witness: in `exWindow` the year 2026 (age 31, outside the window, below
the pension start age 100) has main income 0. -/
theorem main_income_window_witness :
    ((2025 + (1:ℤ), rowAt exWindow (assetsAfter exWindow 1) (2025 + (1:ℤ))) :
      ℤ × CashFlowRow).2.mainIncome = 0 :=
  main_income_window exWindow _
    (by
      unfold initializeCashFlow
      exact List.mem_map.2 ⟨1, by simp [horizonLen, exWindow], rfl⟩)
    (by norm_num [exWindow])
    (by norm_num [exWindow])

/-- C5: when marital status is planning with a declared marriage age, the
marriage year is startYear + (marriageAge − currentAge); spouse income is 0 in
every year strictly before it, and from it onward the spouse's salary and
raise compounding use the marriage year, not the simulation start year, as the
base year (plus pension from the shared pension start age, judged on the
spouse's age counted from the marriage year). -/
theorem planning_marriage_timing (s : SimInput) (si : SpouseInfo) (ma : ℤ)
    (hstat : s.basicInfo.maritalStatus = .planning)
    (hsi : s.basicInfo.spouseInfo = some si)
    (hma : si.marriageAge = some ma) :
    (∀ year : ℤ, year < s.basicInfo.startYear + (ma - s.basicInfo.currentAge) →
        spouseIncomeAt s year = 0) ∧
    (∀ year : ℤ, s.basicInfo.startYear + (ma - s.basicInfo.currentAge) ≤ year →
      ∀ sp sa, s.incomeInfo.spouse = some sp → si.age = some sa →
        spouseIncomeAt s year =
          (if sp.workStartAge ≤
                sa + (year - (s.basicInfo.startYear + (ma - s.basicInfo.currentAge))) ∧
              sa + (year - (s.basicInfo.startYear + (ma - s.basicInfo.currentAge))) ≤
                sp.workEndAge then
            calculateNetIncomeWithRaise sp.annualIncome
              (si.occupation.getD .company_employee) 0 year
              (s.basicInfo.startYear + (ma - s.basicInfo.currentAge))
          else 0) +
          (if s.incomeInfo.pensionStartAge ≤
              sa + (year - (s.basicInfo.startYear + (ma - s.basicInfo.currentAge))) then
            calculatePension sp.annualIncome sp.workStartAge sp.workEndAge
              s.incomeInfo.pensionStartAge (si.occupation.getD .company_employee)
          else 0)) := by
  constructor
  · intro year hy
    simp [spouseIncomeAt, hstat, hsi, hma]
    intro h
    omega
  · intro year hy sp sa hsp hsa
    simp only [spouseIncomeAt, hstat, hsi, hma, hsp, hsa]
    rw [if_neg (show ¬(MaritalStatus.planning = MaritalStatus.married) from by decide)]
    rw [if_pos (trivial : True), if_pos hy]
    by_cases hpen : s.incomeInfo.pensionStartAge ≤
        sa + (year - (s.basicInfo.startYear + (ma - s.basicInfo.currentAge)))
    · rw [if_pos hpen, if_pos hpen]
    · rw [if_neg hpen, if_neg hpen]
      ring

/-- C5 witness: in `exPlanning` (marriage year 2028) spouse income is 0 in
2026 and equals the marriage-year-based salary 240 in 2030. -/
theorem planning_marriage_timing_witness :
    spouseIncomeAt exPlanning 2026 = 0 ∧ spouseIncomeAt exPlanning 2030 = 240 := by
  have h := planning_marriage_timing exPlanning exSpouseInfo 33 rfl rfl rfl
  refine ⟨h.1 2026 (by norm_num [exPlanning]), ?_⟩
  rw [h.2 2030 (by norm_num [exPlanning]) exSpouseInc 28 rfl rfl]
  norm_num [exPlanning, exSpouseInfo, exSpouseInc, calculateNetIncomeWithRaise,
    occupationNetRatio, round1]

/-- Per band, the all-public plan never costs more than the all-private plan
at any child age, for matching university tiers. -/
lemma bandExpense_public_le_private (uPriv uPub : String)
    (hu : (uPriv = "私立大学（文系）" ∧ uPub = "公立大学（文系）") ∨
          (uPriv = "私立大学（理系）" ∧ uPub = "公立大学（理系）"))
    (a : ℤ) :
    bandExpense (publicPlan uPub) a ≤ bandExpense (privatePlan uPriv) a := by
  rcases hu with ⟨h1, h2⟩ | ⟨h1, h2⟩ <;> subst h1 <;> subst h2 <;>
    simp +decide [bandExpense, privatePlan, publicPlan, getUniversityCost] <;>
    split_ifs <;> norm_num

/-- C6: for a child whose age at the target year lies in a schooling band
(0-21) and a non-negative education-cost growth rate, the education expense
computed with the private track in every band (private university tier) is at
least the expense with the corresponding public/standard track. -/
theorem education_private_dominates (uPriv uPub : String)
    (hu : (uPriv = "私立大学（文系）" ∧ uPub = "公立大学（文系）") ∨
          (uPriv = "私立大学（理系）" ∧ uPub = "公立大学（理系）"))
    (ca year startYear currentAge : ℤ) (rate : ℚ) (hr : 0 ≤ rate)
    (hlo : 0 ≤ ca + (year - startYear)) (hhi : ca + (year - startYear) ≤ 21) :
    calculateEducationExpense [⟨ca, publicPlan uPub⟩] [] year currentAge startYear rate ≤
    calculateEducationExpense [⟨ca, privatePlan uPriv⟩] [] year currentAge startYear rate := by
  unfold calculateEducationExpense
  simp only [List.foldl_cons, List.foldl_nil, zero_add, add_zero]
  apply round1_mono
  have hmult : (0:ℚ) ≤ (1 + rate / 100) ^ (year - startYear).toNat := by positivity
  exact mul_le_mul_of_nonneg_right (bandExpense_public_le_private uPriv uPub hu _) hmult

/-- C6 witness: a 4-year-old (preschool band) in 2025 with humanities
university tiers. -/
theorem education_private_dominates_witness :
    calculateEducationExpense [⟨4, publicPlan "公立大学（文系）"⟩] [] 2025 30 2025 0 ≤
    calculateEducationExpense [⟨4, privatePlan "私立大学（文系）"⟩] [] 2025 30 2025 0 :=
  education_private_dominates "私立大学（文系）" "公立大学（文系）"
    (Or.inl ⟨rfl, rfl⟩) 4 2025 2025 30 0 (by norm_num) (by norm_num) (by norm_num)

/-- C7: when deathAge ≥ currentAge the emitted year keys are exactly the
consecutive calendar years from startYear through startYear +
(deathAge − currentAge), there are deathAge − currentAge + 1 of them, and they
are strictly ascending (hence each year appears exactly once). -/
theorem horizon_years (s : SimInput)
    (h : s.basicInfo.currentAge ≤ s.basicInfo.deathAge) :
    (∀ y : ℤ, y ∈ (initializeCashFlow s).map Prod.fst ↔
      s.basicInfo.startYear ≤ y ∧
        y ≤ s.basicInfo.startYear + (s.basicInfo.deathAge - s.basicInfo.currentAge)) ∧
    ((initializeCashFlow s).map Prod.fst).length =
      (s.basicInfo.deathAge - s.basicInfo.currentAge).toNat + 1 ∧
    List.Sorted (· < ·) ((initializeCashFlow s).map Prod.fst) ∧
    ((initializeCashFlow s).map Prod.fst).Nodup := by
  have hkeys : (initializeCashFlow s).map Prod.fst =
      (List.range (horizonLen s.basicInfo)).map
        (fun (i : ℕ) => s.basicInfo.startYear + (i : ℤ)) := by
    unfold initializeCashFlow
    rw [List.map_map]
    rfl
  rw [hkeys]
  have hlen : horizonLen s.basicInfo =
      (s.basicInfo.deathAge - s.basicInfo.currentAge).toNat + 1 := by
    unfold horizonLen; omega
  have hsorted : List.Sorted (· < ·)
      ((List.range (horizonLen s.basicInfo)).map
        (fun (i : ℕ) => s.basicInfo.startYear + (i : ℤ))) := by
    rw [List.Sorted, List.pairwise_map]
    refine (List.pairwise_lt_range _).imp ?_
    intro a b hab
    omega
  refine ⟨?_, by simp [hlen], hsorted, hsorted.nodup⟩
  intro y
  simp only [List.mem_map, List.mem_range]
  constructor
  · rintro ⟨i, hi, rfl⟩
    rw [hlen] at hi
    omega
  · rintro ⟨h1, h2⟩
    refine ⟨(y - s.basicInfo.startYear).toNat, by omega, by omega⟩

/-- C7 witness: the concrete two-year horizon 2025-2026. -/
theorem horizon_years_witness :
    ((initializeCashFlow exReturns).map Prod.fst).length = 2 ∧
      (2026 : ℤ) ∈ (initializeCashFlow exReturns).map Prod.fst := by
  have h := horizon_years exReturns (by norm_num [exReturns])
  refine ⟨?_, (h.1 2026).2 (by norm_num [exReturns])⟩
  rw [h.2.1]
  norm_num [exReturns]

/-- Spouse income is 0 in every year when either the spouse income record or
the spouse profile is missing. -/
lemma spouseIncomeAt_eq_zero_of_missing (s : SimInput) (year : ℤ)
    (habs : s.incomeInfo.spouse = none ∨ s.basicInfo.spouseInfo = none) :
    spouseIncomeAt s year = 0 := by
  rcases habs with habs | habs
  · cases hsi : s.basicInfo.spouseInfo with
    | none => simp [spouseIncomeAt, habs, hsi]
    | some si =>
      cases hma : si.marriageAge with
      | none => simp [spouseIncomeAt, habs, hsi, hma]
      | some ma =>
        cases hage : si.age with
        | none => simp [spouseIncomeAt, habs, hsi, hma, hage]
        | some sa => simp [spouseIncomeAt, habs, hsi, hma, hage]
  · simp [spouseIncomeAt, habs]

/-- C8: with marital status married or planning but no spouse income record or
no spouse profile, the recompute still emits a row for every simulated year
and every row's spouse income is 0 — the computation is total, it never
fails. -/
theorem missing_spouse_defaults (s : SimInput)
    (hstat : s.basicInfo.maritalStatus = .married ∨
      s.basicInfo.maritalStatus = .planning)
    (habs : s.incomeInfo.spouse = none ∨ s.basicInfo.spouseInfo = none) :
    (initializeCashFlow s).length = horizonLen s.basicInfo ∧
    ∀ p ∈ initializeCashFlow s, p.2.spouseIncome = 0 := by
  refine ⟨by simp [initializeCashFlow], ?_⟩
  intro p hp
  unfold initializeCashFlow at hp
  obtain ⟨i, hi, rfl⟩ := List.mem_map.1 hp
  show round1 (spouseIncomeAt s (s.basicInfo.startYear + (i:ℤ))) = 0
  rw [spouseIncomeAt_eq_zero_of_missing s _ habs, round1_zero]

/-- C8 witness: the married-with-no-spouse-record profile. -/
theorem missing_spouse_defaults_witness :
    (initializeCashFlow exMarriedNoSpouse).length =
        horizonLen exMarriedNoSpouse.basicInfo ∧
      (rowAt exMarriedNoSpouse (assetsAfter exMarriedNoSpouse 0)
        (2025 + (0:ℤ))).spouseIncome = 0 := by
  have h := missing_spouse_defaults exMarriedNoSpouse (Or.inl rfl) (Or.inl rfl)
  exact ⟨h.1, h.2 _ (by
    unfold initializeCashFlow
    exact List.mem_map.2 ⟨0, by simp [horizonLen, exMarriedNoSpouse], rfl⟩)⟩

/-- The carried closing assets do not depend on the side-income list or the
severance pay. -/
lemma assetsAfter_side_irrelevant (s : SimInput) (sides : List SideIncome)
    (sev : ℚ) (n : ℕ) :
    assetsAfter
      { s with incomeInfo :=
        { s.incomeInfo with sideIncomes := sides, severancePay := sev } } n =
    assetsAfter s n := by
  induction n with
  | zero => rfl
  | succ n ih =>
    show nextAssets _ (assetsAfter _ n) _ = nextAssets _ (assetsAfter _ n) _
    rw [ih]
    exact rfl

/-- C9: every emitted row has sideIncome exactly 0, and replacing the
side-income list and the severance pay by anything whatsoever leaves the whole
emitted cash flow unchanged — they never affect any component of any row or
the closing-assets recurrence. -/
theorem side_income_inert (s : SimInput) :
    (∀ p ∈ initializeCashFlow s, p.2.sideIncome = 0) ∧
    ∀ (sides : List SideIncome) (sev : ℚ),
      initializeCashFlow
        { s with incomeInfo :=
          { s.incomeInfo with sideIncomes := sides, severancePay := sev } } =
      initializeCashFlow s := by
  constructor
  · intro p hp
    unfold initializeCashFlow at hp
    obtain ⟨i, hi, rfl⟩ := List.mem_map.1 hp
    rfl
  · intro sides sev
    unfold initializeCashFlow
    refine congrArg (fun f => List.map f (List.range (horizonLen s.basicInfo)))
      (funext fun i => ?_)
    rw [assetsAfter_side_irrelevant]
    exact rfl

/-- C9 witness: a concrete one-time side income of 100 and severance pay 500
change nothing. -/
theorem side_income_inert_witness :
    (rowAt exReturns (assetsAfter exReturns 0) (2025 + (0:ℤ))).sideIncome = 0 ∧
    initializeCashFlow
      { exReturns with incomeInfo :=
        { exReturns.incomeInfo with
            sideIncomes := [⟨.one_time, some ⟨40, 100⟩, none⟩], severancePay := 500 } } =
      initializeCashFlow exReturns := by
  have h := side_income_inert exReturns
  exact ⟨h.1 _ (by
    unfold initializeCashFlow
    exact List.mem_map.2 ⟨0, by simp [horizonLen, exReturns], rfl⟩),
    h.2 [⟨.one_time, some ⟨40, 100⟩, none⟩] 500⟩

/-- C10: updating cell (year, field) to a value leaves every other year's row
object untouched and every other field of that year's row with its previous
cell value, while the addressed cell holds exactly the new value — no other
cell is recomputed. -/
theorem update_cashflow_frame (cf : CashFlowObject) (year : ℤ)
    (field : CashFlowField) (value : ℚ) :
    (∀ y : ℤ, y ≠ year → updateCashFlowValue cf year field value y = cf y) ∧
    (∀ g : CashFlowField, g ≠ field →
      (updateCashFlowValue cf year field value year).bind (fun r => r g) =
        (cf year).bind (fun r => r g)) ∧
    (updateCashFlowValue cf year field value year).bind (fun r => r field) =
      some value := by
  refine ⟨?_, ?_, ?_⟩
  · intro y hy
    unfold updateCashFlowValue
    rw [if_neg hy]
  · intro g hg
    unfold updateCashFlowValue
    rw [if_pos rfl]
    simp [hg]
  · unfold updateCashFlowValue
    rw [if_pos rfl]
    simp

/-- C10 witness: on the concrete one-row object, updating (2025, mainIncome)
to 7 preserves year 2024 and the livingExpense cell, and sets the addressed
cell to 7. -/
theorem update_cashflow_frame_witness :
    updateCashFlowValue exObj 2025 .mainIncome 7 2024 = exObj 2024 ∧
    (updateCashFlowValue exObj 2025 .mainIncome 7 2025).bind
        (fun r => r .livingExpense) =
      (exObj 2025).bind (fun r => r .livingExpense) ∧
    (updateCashFlowValue exObj 2025 .mainIncome 7 2025).bind
        (fun r => r .mainIncome) = some 7 := by
  have h := update_cashflow_frame exObj 2025 .mainIncome 7
  exact ⟨h.1 2024 (by norm_num), h.2.1 .livingExpense (by decide), h.2.2⟩
